import Mathlib

/-!
Verification of the nunuStudio scene deserialization engine
(`source/core/loaders/ObjectLoader.js`).

The development shallowly embeds `ObjectLoader.prototype.parseObject`,
`parseSkeletons`, `bindSkeletons`, `parseAnimations` and the top level
`parse` as total Lean functions over typed versions of the JSON node
records.  Numbers appearing in records are modelled as `Int` (no claim
under consideration depends on floating point arithmetic), JSON arrays
as lists, and optional JSON fields as `Option`.  JavaScript exceptions
raised inside the per-node `try` block are modelled with `Except`;
`console.error` / `console.warn` output is collected into an explicit
log list.

External collaborators (the THREE.js rendering library and repository
classes that are not part of the provided sources, such as `Container`,
`Scene` and `ResourceContainer`) are modelled from the specification's
description of their interfaces; each such definition carries a comment
saying so.  Scene-graph nodes found by uuid lookup are recorded by their
uuid (the uuid determines the node found by `treeFind`).
-/

namespace NunuLoader

/-- Console output produced while loading: `console.error` and
`console.warn` entries, in emission order. -/
inductive LogEntry where
  | error (msg : String)
  | warn (msg : String)
deriving DecidableEq, Repr

/-- Animation clip at the granularity the loader touches: a name and an
optional uuid (`THREE.AnimationClip` is an external library type). -/
structure Clip where
  name : String
  uuid : Option String := none
deriving DecidableEq, Repr

/-- Raw animation record inside a node record's `animations` array. -/
structure AnimRec where
  name : String
  uuid : Option String := none
deriving DecidableEq, Repr

/-- Models the external `THREE.AnimationClip.parse`: it builds a fresh
clip from the record and does not copy the record's `uuid` field (the
loader's own `parseAnimations` copies it manually afterwards). -/
def clipParse (a : AnimRec) : Clip := { name := a.name, uuid := none }

/-- Geometry resource instance; the loader only ever consults its
`bones` array (`geometry.bones && geometry.bones.length > 0`).  An
undefined `bones` property in JavaScript behaves like the empty list
here (both fail the `length > 0` test). -/
structure Geometry where
  bones : List String := []
deriving DecidableEq, Repr

/-- Raw skeleton record inside a node record's `skeletons` array:
`{uuid, bones, boneInverses}` with `bones` a list of bone-node uuids and
`boneInverses` the parallel list of 16-entry inverse bind matrices. -/
structure SkeletonRec where
  uuid : String
  bones : List String
  boneInverses : List (List Int)
deriving DecidableEq, Repr

/-- Raw LOD level record: `{object, distance}`. -/
structure LevelRec where
  object : String
  distance : Int
deriving DecidableEq, Repr

/-- Shadow-map configuration record (`data.shadow`); no claim inspects
its interior, the loader forwards it to `shadow.fromJSON`. -/
structure ShadowRec where
  bias : Int := 0
  radius : Int := 1
deriving DecidableEq, Repr

/-- Identity 4x4 matrix as a flat 16-entry array, the default value of
a node's `matrix` and `bindMatrix`. -/
def mat4id : List Int :=
  [1, 0, 0, 0, 0, 1, 0, 0, 0, 0, 1, 0, 0, 0, 0, 1]

/-- One entry of a skeleton's bone list: either a tree node recorded by
its uuid (uuid lookup determines the node) or the placeholder bone
(`new THREE.Bone()`) substituted for a uuid missing from the tree. -/
inductive BoneRef where
  | found (uuid : String)
  | placeholder
deriving DecidableEq, Repr

/-- Skeleton object: bone references in declared order plus the
parallel inverse bind matrices. -/
structure Skel where
  bones : List BoneRef
  boneInverses : List (List Int)
deriving DecidableEq, Repr

/-- One slot of a Scene's `cameras` array.  Deserialization stores the
raw uuid strings (`object.cameras = data.cameras`); the post-processing
pass replaces resolved slots with the camera node found in the tree,
recorded here by its uuid. -/
inductive CamSlot where
  | ref (uuid : String)
  | cam (uuid : String)
deriving DecidableEq, Repr

/-- Scalar state of one constructed scene-graph node.  Fields mirror
the properties `parseObject` writes on the object; constructor defaults
mirror the `THREE.Object3D` defaults.  `matrixForceUpdated` records
that the load-time `updateMatrix(); updateMatrixWorld(true)` pass ran
(the matrix arithmetic itself is external library math). -/
structure Core where
  kind : String
  uuid : String := ""
  name : String := ""
  locked : Bool := false
  folded : Bool := false
  frustumCulled : Bool := true
  renderOrder : Int := 0
  matrix : List Int := mat4id
  position : List Int := [0, 0, 0]
  rotation : List Int := [0, 0, 0]
  quaternion : List Int := [0, 0, 0, 1]
  scale : List Int := [1, 1, 1]
  castShadow : Bool := false
  receiveShadow : Bool := false
  shadow : Option ShadowRec := none
  visible : Bool := true
  userData : Option String := none
  layers : Int := 1
  animations : Option (List Clip) := none
  matrixAutoUpdate : Bool := true
  matrixForceUpdated : Bool := false
  isSkinnedMesh : Bool := false
  skeletonUUID : Option String := none
  bindMode : Option String := none
  bindMatrix : List Int := mat4id
  material : Option String := none
  ownsResources : Bool := false
deriving DecidableEq, Repr

/-- A constructed scene-graph node: scalar state, the skeleton bound to
a skinned mesh (if any), a Scene's `cameras` slots, an LOD's registered
levels (registered child recorded by uuid, paired with the distance
threshold), and the ordered child list. -/
inductive Node3D where
  | mk (core : Core) (boundSkeleton : Option Skel) (cameras : List CamSlot)
      (lodLevels : List (String × Int)) (children : List Node3D)

def Node3D.core : Node3D → Core
  | .mk c _ _ _ _ => c

def Node3D.boundSkeleton : Node3D → Option Skel
  | .mk _ b _ _ _ => b

def Node3D.cameras : Node3D → List CamSlot
  | .mk _ _ cams _ _ => cams

def Node3D.lodLevels : Node3D → List (String × Int)
  | .mk _ _ _ lods _ => lods

def Node3D.children : Node3D → List Node3D
  | .mk _ _ _ _ ch => ch

def Node3D.withCore (f : Core → Core) : Node3D → Node3D
  | .mk c b cams lods ch => .mk (f c) b cams lods ch

def Node3D.withBoundSkeleton (b : Option Skel) : Node3D → Node3D
  | .mk c _ cams lods ch => .mk c b cams lods ch

def Node3D.withCameras (cams : List CamSlot) : Node3D → Node3D
  | .mk c b _ lods ch => .mk c b cams lods ch

def Node3D.withLod (lods : List (String × Int)) : Node3D → Node3D
  | .mk c b cams _ ch => .mk c b cams lods ch

def Node3D.withChildren (ch : List Node3D) : Node3D → Node3D
  | .mk c b cams lods _ => .mk c b cams lods ch

/-- Scalar fields of one raw JSON node record (`data` in the source);
`type`, `uuid` and `name` are always present, the rest are optional
exactly as in the input schema.  Variant payload fields that no claim
mentions (audio parameters, renderer configuration, fog, and so on) are
not tracked. -/
structure NData where
  type : String := ""
  uuid : String := ""
  name : String := ""
  locked : Option Bool := none
  hidden : Option Bool := none
  folded : Option Bool := none
  frustumCulled : Option Bool := none
  renderOrder : Option Int := none
  animations : Option (List AnimRec) := none
  matrix : Option (List Int) := none
  position : Option (List Int) := none
  rotation : Option (List Int) := none
  quaternion : Option (List Int) := none
  scale : Option (List Int) := none
  castShadow : Option Bool := none
  receiveShadow : Option Bool := none
  shadow : Option ShadowRec := none
  visible : Option Bool := none
  userData : Option String := none
  layers : Option Int := none
  matrixAutoUpdate : Option Bool := none
  skeletons : Option (List SkeletonRec) := none
  geometry : Option String := none
  material : Option String := none
  skeleton : Option String := none
  bindMode : Option String := none
  bindMatrix : Option (List Int) := none
  cameras : Option (List String) := none
  levels : Option (List LevelRec) := none
deriving DecidableEq, Repr

/-- A raw node record together with its ordered children records (the
iteration order of the JSON `children` map). -/
inductive NodeData where
  | mk (d : NData) (children : List NodeData)

def NodeData.d : NodeData → NData
  | .mk d _ => d

def NodeData.children : NodeData → List NodeData
  | .mk _ ch => ch

/-- Models the JavaScript strict comparison `x === true` applied to an
optional boolean field: only the literal `true` passes. -/
def strictTrue : Option Bool → Bool
  | some true => true
  | _ => false

/-- Association-list lookup, the model of reading `container[uuid]`. -/
def slookup {α : Type} : List (String × α) → String → Option α
  | [], _ => none
  | (k, v) :: rest, key => if k = key then some v else slookup rest key

/-- Association-list write, the model of `container[uuid] = value`
(overwrites an existing key, otherwise appends). -/
def supsert {α : Type} : List (String × α) → String → α → List (String × α)
  | [], key, v => [(key, v)]
  | (k, w) :: rest, key, v =>
    if k = key then (k, v) :: rest else (k, w) :: supsert rest key v

/-- Loading-session state: the resource containers consulted by
`parseObject`, already populated by the sub-loader phase, plus the
external matrix decomposition routine
(`THREE.Matrix4.decompose` produces position, quaternion and scale). -/
structure Ctx where
  geometries : List (String × Geometry) := []
  materials : List (String × String) := []
  decompose : List Int → List Int × List Int × List Int :=
    fun _ => ([0, 0, 0], [0, 0, 0, 1], [1, 1, 1])

/-- Modelled from the spec: `ResourceContainer.getGeometry` (the class
is not under the provided sources) follows the collaborator interface
`getX(uuid) -> resource|undefined`: a container lookup by uuid.  A
record without the reference field indexes with `undefined` and also
misses. -/
def getGeometry (ctx : Ctx) (uuid : Option String) : Option Geometry :=
  uuid.bind (slookup ctx.geometries)

/-- Modelled from the spec: `ResourceContainer.getMaterial`, as
`getGeometry` above. -/
def getMaterial (ctx : Ctx) (uuid : Option String) : Option String :=
  uuid.bind (slookup ctx.materials)

/-- Fresh node of the given kind with constructor-default state; this
is what `new Container()` and the other payload-free constructions
produce before `parseObject` applies the universal fields. -/
def mkBase (kind : String) : Node3D :=
  .mk { kind := kind } none [] [] []

/-- The exhaustive list of case labels of the `switch (data.type)`
dispatch in `parseObject`; any other type tag reaches the `default`
arm. -/
def knownTags : List String :=
  ["SpineAnimation", "Audio", "PositionalAudio", "Physics",
   "ParticleEmiter", "LensFlare", "TextMesh", "Text3D", "Program",
   "LeapDevice", "Kinect", "Sky", "CubeCamera", "FirstPersonControls",
   "OrbitControls", "Scene", "PerspectiveCamera", "OrthographicCamera",
   "Script", "RectAreaLight", "AmbientLight", "DirectionalLight",
   "PointLight", "SpotLight", "HemisphereLight", "SkinnedMesh",
   "InstancedMesh", "HTMLView", "LightProbe", "Mesh", "TextBitmap",
   "TextSprite", "LOD", "Line", "LineLoop", "LineSegments",
   "PointCloud", "Points", "Sprite", "Group", "Bone"]

/-- Variant-specific construction: the body of the `try` block's
`switch (data.type)`.  Variant payload fields that no claim mentions
are not tracked, and such constructions are modelled as succeeding; the
`Mesh` and `SkinnedMesh` arms model the read `geometry.bones` on the
result of `getGeometry`, which throws a `TypeError` when the geometry
uuid is absent from the geometry container (`getGeometry` returns
`undefined`).  In the `SkinnedMesh` arm that read is guarded by
`data.skeleton !== undefined &&`, so it only throws when a skeleton
reference is present.  `Group` and the `default` arm construct the
generic empty group node `Container`. -/
def buildVariant (ctx : Ctx) (d : NData) : Except String Node3D :=
  match d.type with
  | "SpineAnimation" => .ok (mkBase "SpineAnimation")
  | "Audio" => .ok (mkBase "Audio")
  | "PositionalAudio" => .ok (mkBase "PositionalAudio")
  | "Physics" => .ok (mkBase "Physics")
  | "ParticleEmiter" => .ok (mkBase "ParticleEmiter")
  | "LensFlare" => .ok (mkBase "LensFlare")
  | "TextMesh" | "Text3D" => .ok (mkBase "TextMesh")
  | "Program" => .ok (mkBase "Program")
  | "LeapDevice" => .ok (mkBase "LeapMotion")
  | "Kinect" => .ok (mkBase "KinectDevice")
  | "Sky" => .ok (mkBase "Sky")
  | "CubeCamera" => .ok (mkBase "CubeCamera")
  | "FirstPersonControls" => .ok (mkBase "FirstPersonControls")
  | "OrbitControls" => .ok (mkBase "OrbitControls")
  | "Scene" =>
    .ok (match d.cameras with
         | some cs => (mkBase "Scene").withCameras (cs.map CamSlot.ref)
         | none => mkBase "Scene")
  | "PerspectiveCamera" => .ok (mkBase "PerspectiveCamera")
  | "OrthographicCamera" => .ok (mkBase "OrthographicCamera")
  | "Script" => .ok (mkBase "Script")
  | "RectAreaLight" => .ok (mkBase "RectAreaLight")
  | "AmbientLight" => .ok (mkBase "AmbientLight")
  | "DirectionalLight" => .ok (mkBase "DirectionalLight")
  | "PointLight" => .ok (mkBase "PointLight")
  | "SpotLight" => .ok (mkBase "SpotLight")
  | "HemisphereLight" => .ok (mkBase "HemisphereLight")
  | "SkinnedMesh" =>
    match d.skeleton with
    | some su =>
      match getGeometry ctx d.geometry with
      | none => .error "TypeError: cannot read bones of undefined"
      | some _g =>
        .ok ((mkBase "SkinnedMesh").withCore (fun c =>
          { c with isSkinnedMesh := true, skeletonUUID := some su,
                   material := getMaterial ctx d.material,
                   bindMode := d.bindMode,
                   bindMatrix := d.bindMatrix.getD mat4id }))
    | none =>
      .ok ((mkBase "SkinnedMesh").withCore (fun c =>
        { c with isSkinnedMesh := true,
                 material := getMaterial ctx d.material,
                 bindMode := d.bindMode,
                 bindMatrix := d.bindMatrix.getD mat4id }))
  | "InstancedMesh" => .ok (mkBase "InstancedMesh")
  | "HTMLView" => .ok (mkBase "HTMLView")
  | "LightProbe" => .ok (mkBase "LightProbe")
  | "Mesh" =>
    match getGeometry ctx d.geometry with
    | none => .error "TypeError: cannot read bones of undefined"
    | some g =>
      if 0 < g.bones.length then
        .ok ((mkBase "SkinnedMesh").withCore (fun c =>
          { c with isSkinnedMesh := true,
                   material := getMaterial ctx d.material }))
      else
        .ok ((mkBase "Mesh").withCore (fun c =>
          { c with material := getMaterial ctx d.material }))
  | "TextBitmap" => .ok (mkBase "TextBitmap")
  | "TextSprite" => .ok (mkBase "TextSprite")
  | "LOD" => .ok (mkBase "LOD")
  | "Line" => .ok (mkBase "Line")
  | "LineLoop" => .ok (mkBase "LineLoop")
  | "LineSegments" => .ok (mkBase "LineSegments")
  | "PointCloud" | "Points" => .ok (mkBase "Points")
  | "Sprite" => .ok (mkBase "Sprite")
  | "Group" => .ok (mkBase "Container")
  | "Bone" => .ok (mkBase "Bone")
  | _ => .ok (mkBase "Container")

mutual

/-- Tree lookup by uuid.  This models `THREE.Object3D.getObjectByProperty
("uuid", value)` (external library: checks the receiver first, then the
children depth-first, returning `undefined` on a miss) and — modelled
from the spec — `Scene.getCamera` (the class is not under the provided
sources; the spec describes camera resolution as resolving the uuid
list "into actual camera node references by tree lookup"). -/
def treeFind (uuid : String) : Node3D → Option Node3D
  | .mk c b cams lods ch =>
    if c.uuid = uuid then some (.mk c b cams lods ch)
    else treeFindL uuid ch

def treeFindL (uuid : String) : List Node3D → Option Node3D
  | [] => none
  | t :: ts =>
    match treeFind uuid t with
    | some r => some r
    | none => treeFindL uuid ts

end

/-- Line-by-line embedding of `ObjectLoader.prototype.parseAnimations`:
for each record it parses a clip and copies the record uuid onto it,
but the accumulating `animations.push();` call is made with NO argument
and therefore appends nothing, so the returned list is always empty
(the computed clip is discarded, mirrored by the unused binding). -/
def parseAnimations (array : List AnimRec) : List Clip :=
  array.foldl
    (fun animations a =>
      let clip := clipParse a
      let _clip :=
        match a.uuid with
        | some u => { clip with uuid := some u }
        | none => clip
      animations)
    []

/-- Bone-resolution loop of `parseSkeletons`: walks the declared bone
uuids in order, pairing each with its inverse bind matrix; a uuid
missing from the tree warns and substitutes a placeholder
`new THREE.Bone()`.  Returns bones, inverses and the warnings. -/
def skelBones (t : Node3D) :
    List String → List (List Int) → List BoneRef × List (List Int) × List LogEntry
  | [], _ => ([], [], [])
  | u :: us, invs =>
    let step :=
      match treeFind u t with
      | some _found => (BoneRef.found u, ([] : List LogEntry))
      | none =>
        (BoneRef.placeholder,
         [LogEntry.warn ("THREE.ObjectLoader: Not found Bone whose uuid is " ++ u)])
    let inv := invs.headD mat4id
    let rest := skelBones t us invs.tail
    (step.1 :: rest.1, inv :: rest.2.1, step.2 ++ rest.2.2)

/-- The `Skeleton` object built for one skeleton record:
`new Skeleton(bones, boneInverses)` with the bones resolved by
`skelBones`. -/
def mkSkel (t : Node3D) (sk : SkeletonRec) : Skel :=
  { bones := (skelBones t sk.bones sk.boneInverses).1,
    boneInverses := (skelBones t sk.bones sk.boneInverses).2.1 }

/-- One iteration of the `parseSkeletons` loop: build the record's
skeleton and store it under the record's uuid
(`skeletons[uuid] = new Skeleton(bones, boneInverses)`). -/
def skelStep (object : Node3D) (acc : List (String × Skel) × List LogEntry)
    (sk : SkeletonRec) : List (String × Skel) × List LogEntry :=
  (supsert acc.1 sk.uuid (mkSkel object sk),
   acc.2 ++ (skelBones object sk.bones sk.boneInverses).2.2)

/-- Embedding of `ObjectLoader.prototype.parseSkeletons`: with an
undefined `skeletons` block it returns the empty map, otherwise it
builds one `Skeleton` per record (resolving bones against the tree via
`skelBones`) and stores it in the map under the record's uuid. -/
def parseSkeletons (json : Option (List SkeletonRec)) (object : Node3D) :
    List (String × Skel) × List LogEntry :=
  match json with
  | none => ([], [])
  | some l => l.foldl (skelStep object) ([], [])

/-- Per-node callback of `bindSkeletons`' traversal: on a skinned mesh
carrying a `skeletonUUID`, a matching skeleton is bound
(`obj.bind(skeleton, obj.bindMatrix)`, modelled as storing the
skeleton) and a missing one warns and leaves the mesh unbound; in both
cases `delete obj.skeletonUUID` removes the property.  Other nodes are
untouched. -/
def bindCallback (skeletons : List (String × Skel)) (c : Core)
    (b : Option Skel) : Core × Option Skel × List LogEntry :=
  match c.isSkinnedMesh, c.skeletonUUID with
  | true, some su =>
    match slookup skeletons su with
    | none =>
      ({ c with skeletonUUID := none }, b,
       [LogEntry.warn ("THREE.ObjectLoader: Not found Skeleton whose uuid is " ++ su)])
    | some sk => ({ c with skeletonUUID := none }, some sk, [])
  | _, _ => (c, b, [])

mutual

/-- Application of `bindCallback` to every node of the subtree, in the
preorder of `object.traverse`. -/
def bindTree (skeletons : List (String × Skel)) : Node3D → Node3D × List LogEntry
  | .mk c b cams lods ch =>
    let here := bindCallback skeletons c b
    let rest := bindTreeL skeletons ch
    (.mk here.1 here.2.1 cams lods rest.1, here.2.2 ++ rest.2)

def bindTreeL (skeletons : List (String × Skel)) :
    List Node3D → List Node3D × List LogEntry
  | [] => ([], [])
  | t :: ts =>
    let r := bindTree skeletons t
    let rs := bindTreeL skeletons ts
    (r.1 :: rs.1, r.2 ++ rs.2)

end

/-- Embedding of `ObjectLoader.prototype.bindSkeletons`: an empty
skeleton map returns immediately, otherwise the whole subtree is
traversed with `bindCallback`. -/
def bindSkeletons (object : Node3D) (skeletons : List (String × Skel)) :
    Node3D × List LogEntry :=
  if skeletons.length = 0 then (object, [])
  else bindTree skeletons object

/-- Resolution of one `cameras` slot: `getCamera` is invoked with
whatever sits in the slot.  A raw uuid string is looked up in the tree;
an already-resolved camera object compares unequal to every uuid string
and finds nothing (this input never arises, since the loop below never
revisits a replaced slot). -/
def getCameraSlot (t : Node3D) : CamSlot → Option Node3D
  | .ref u => treeFind u t
  | .cam _ => none

/-- The Scene post-processing loop
`for (i = 0; i < cameras.length; i++)` with its in-place
`cameras[i] = camera` replacement and `cameras.splice(i, 1)` removal,
as a zipper: `done` holds the slots before index `i` (reversed),
`rest` the slots from `i` on.  After a `splice` the loop increment
skips the element that slid into position `i`, which the zipper mirrors
by moving that element to `done` unexamined. -/
def camLoopAux (t : Node3D) : List CamSlot → List CamSlot → List CamSlot
  | done, [] => done.reverse
  | done, s :: rest =>
    match getCameraSlot t s with
    | some c => camLoopAux t (CamSlot.cam c.core.uuid :: done) rest
    | none =>
      match rest with
      | [] => done.reverse
      | y :: rest2 => camLoopAux t (y :: done) rest2

/-- The LOD post-processing loop: each declared level whose `object`
uuid is found in the subtree is registered via
`object.addLevel(child, level.distance)` (external library call,
modelled as appending the pair); an unresolved level is skipped with no
output of any kind. -/
def lodPass (t : Node3D) (levels : List LevelRec) : List (String × Int) :=
  levels.foldl
    (fun acc lv =>
      match treeFind lv.object t with
      | some child => acc ++ [(child.core.uuid, lv.distance)]
      | none => acc)
    []

/-- Universal-field pass of `parseObject` (everything between the
`try`/`catch` and the children loop), as the net effect of the source's
sequence of writes on the constructed object:
uuid, name, `locked || hidden`, `folded`, optional `frustumCulled` and
`renderOrder`, the inline animation-clip parse, the transform
(`matrix.fromArray` + `matrix.decompose(position, quaternion, scale)`
first when a matrix is present, then each explicitly stored component
array overriding the field it names), `castShadow === true`,
`receiveShadow === true`, the shadow-map configuration, `visible ===
true`, user data and the layers mask.  Every field is written at most
once per run except position/quaternion/scale, whose
decompose-then-override sequence is captured by using the decomposed
value as the default of the explicit override. -/
def applyCommon (ctx : Ctx) (d : NData) (object : Node3D) : Node3D :=
  object.withCore (fun c =>
    { c with
      uuid := d.uuid
      name := d.name
      locked := strictTrue d.locked || strictTrue d.hidden
      folded := strictTrue d.folded
      frustumCulled := d.frustumCulled.getD c.frustumCulled
      renderOrder := d.renderOrder.getD c.renderOrder
      animations :=
        match d.animations with
        | some arr => some (arr.map clipParse)
        | none => c.animations
      matrix := d.matrix.getD c.matrix
      position :=
        d.position.getD
          (match d.matrix with
           | some m => (ctx.decompose m).1
           | none => c.position)
      rotation := d.rotation.getD c.rotation
      quaternion :=
        d.quaternion.getD
          (match d.matrix with
           | some m => (ctx.decompose m).2.1
           | none => c.quaternion)
      scale :=
        d.scale.getD
          (match d.matrix with
           | some m => (ctx.decompose m).2.2
           | none => c.scale)
      castShadow := strictTrue d.castShadow
      receiveShadow := strictTrue d.receiveShadow
      shadow :=
        match d.shadow with
        | some s => some s
        | none => c.shadow
      visible := strictTrue d.visible
      userData :=
        match d.userData with
        | some u => some u
        | none => c.userData
      layers := d.layers.getD c.layers })

/-- Error line printed by the `catch` block. -/
def errorMsg (uuid : String) : String :=
  "nunuStudio: Error parsing and creating object " ++ uuid ++ ", object skiped."

/-- The `try`/`catch` around the variant dispatch: a thrown construction
is replaced by `new Container()` and reported with `console.error`. -/
def variantStep (ctx : Ctx) (d : NData) : Node3D × List LogEntry :=
  match buildVariant ctx d with
  | .ok o => (o, [])
  | .error _e => (mkBase "Container", [LogEntry.error (errorMsg d.uuid)])

/-- The `matrixAutoUpdate` edge-case step: when the field is present it
is stored, and a static node (`matrixAutoUpdate === false`) gets its
matrices force-recomputed at load time (the recomputation is external
matrix math, recorded by the `matrixForceUpdated` flag). -/
def matrixAutoUpdateStep (d : NData) (object : Node3D) : Node3D :=
  match d.matrixAutoUpdate with
  | none => object
  | some b =>
    let o := object.withCore (fun c => { c with matrixAutoUpdate := b })
    if b = false then
      o.withCore (fun c => { c with matrixForceUpdated := true })
    else o

/-- The `if (data.skeletons)` step: build the skeleton map against the
now-complete subtree, then bind it to the skinned meshes. -/
def skeletonStep (d : NData) (object : Node3D) : Node3D × List LogEntry :=
  match d.skeletons with
  | none => (object, [])
  | some sb =>
    let ps := parseSkeletons (some sb) object
    let bs := bindSkeletons object ps.1
    (bs.1, ps.2 ++ bs.2)

/-- The `if (data.animations)` step AFTER the skeleton pass: the clip
list the universal pass stored is overwritten with `parseAnimations`'
result. -/
def animationsStep (d : NData) (object : Node3D) : Node3D :=
  match d.animations with
  | none => object
  | some arr =>
    object.withCore (fun c => { c with animations := some (parseAnimations arr) })

/-- Type-specific post-processing on `data.type`: a Program absorbs the
resource containers (`object.copyResources(this)`, recorded as an
ownership flag), a Scene runs the camera-resolution loop, an LOD
registers its levels.  An LOD record always carries a `levels` array in
the input schema; the untyped source would fault on `levels.length` if
it did not. -/
def postProcessStep (d : NData) (object : Node3D) : Node3D :=
  if d.type = "Program" then
    object.withCore (fun c => { c with ownsResources := true })
  else if d.type = "Scene" then
    object.withCameras (camLoopAux object [] object.cameras)
  else if d.type = "LOD" then
    match d.levels with
    | some ls => object.withLod (lodPass object ls)
    | none => object
  else object

/-- The node state reached before the skeleton pass: the variant
construction's survivor with the universal fields applied, the finished
children attached, and the `matrixAutoUpdate` step run. -/
def preSkeleton (ctx : Ctx) (d : NData) (kids : List Node3D) : Node3D :=
  matrixAutoUpdateStep d ((applyCommon ctx d (variantStep ctx d).1).withChildren kids)

mutual

/-- Embedding of `ObjectLoader.prototype.parseObject`, in the source's
order: variant construction inside `try`/`catch`, the universal-field
pass, recursive construction and attachment of the children in declared
order, the `matrixAutoUpdate` step, the skeleton pass, the
animation-list overwrite, and the type-specific post-processing.
The log collects console output in emission order. -/
def parseObject (ctx : Ctx) : NodeData → Node3D × List LogEntry
  | .mk d ch =>
    let kids := parseChildren ctx ch
    let o3 := preSkeleton ctx d kids.1
    let s4 := skeletonStep d o3
    (postProcessStep d (animationsStep d s4.1),
     (variantStep ctx d).2 ++ kids.2 ++ s4.2)

def parseChildren (ctx : Ctx) : List NodeData → List Node3D × List LogEntry
  | [] => ([], [])
  | c :: cs =>
    let r := parseObject ctx c
    let rs := parseChildren ctx cs
    (r.1 :: rs.1, r.2 ++ rs.2)

end

/-- A loadable JSON document as far as the claims consult it: the
declared image resources (only their presence matters to completion
signaling) and the required root node record.  The resource sub-loader
phase that `parse` runs first is represented by the already-populated
containers in `Ctx`. -/
structure Document where
  images : Option (List String) := none
  object : NodeData

/-- Result of a top-level `parse` call: the constructed tree, the
console log, and the argument `onLoad` was synchronously invoked with
(`none` when `parse` did not invoke it). -/
structure ParseResult where
  tree : Node3D
  log : List LogEntry
  onLoadCalledWith : Option Node3D

/-- Embedding of `ObjectLoader.prototype.parse`: builds the tree from
the root record, then — only when the document declares no images
(`json.images === undefined || json.images.length === 0`) and an
`onLoad` callback was supplied — invokes the callback synchronously
with the finished tree, and in every case returns the tree. -/
def parse (ctx : Ctx) (json : Document) (onLoadProvided : Bool) : ParseResult :=
  let r := parseObject ctx json.object
  let noImages : Bool :=
    match json.images with
    | none => true
    | some l => l.length == 0
  { tree := r.1, log := r.2,
    onLoadCalledWith := if noImages && onLoadProvided then some r.1 else none }

/-- Modelled from the spec: the completion-signaling policy — "if the
document declared zero image resources, the completion callback fires
synchronously with the finished tree; if images were declared,
completion is deferred" to the external asset subsystem, so `parse`
itself does not fire it. -/
def specCompletion (images : Option (List String)) (tree : Node3D) :
    Option Node3D :=
  match images with
  | none => some tree
  | some [] => some tree
  | some (_ :: _) => none

mutual

/-- Decides that no skinned mesh anywhere in the subtree still carries
a `skeletonUUID` property. -/
def allSkinnedUnbound : Node3D → Bool
  | .mk c _ _ _ ch =>
    (!c.isSkinnedMesh || c.skeletonUUID.isNone) && allSkinnedUnboundL ch

def allSkinnedUnboundL : List Node3D → Bool
  | [] => true
  | t :: ts => allSkinnedUnbound t && allSkinnedUnboundL ts

end

/-! Concrete inputs used to witness the claim theorems. -/

/-- Mesh record whose geometry uuid resolves to nothing: its variant
construction throws. -/
def c1rec : NData :=
  { type := "Mesh", uuid := "m1", name := "broken mesh", geometry := some "gm" }

/-- Parent group record holding `c1rec` and one healthy sibling. -/
def c1parent : NData := { type := "Group", uuid := "p1", name := "parent" }

/-- Sibling record of `c1rec` under `c1parent`. -/
def c1sibling : NData := { type := "Bone", uuid := "s1", name := "sibling" }

/-- Scene record whose two camera uuids both fail to resolve. -/
def c2rec : NData :=
  { type := "Scene", uuid := "scene1", name := "scene",
    cameras := some ["bad1", "bad2"] }

/-- Group record declaring one animation clip. -/
def c3rec : NData :=
  { type := "Group", uuid := "g1", name := "animated",
    animations := some [{ name := "walk", uuid := some "clip1" }] }

/-- Tree against which the witness skeleton block is resolved: a group
with one bone child. -/
def c4tree : Node3D :=
  .mk { kind := "Container", uuid := "root" } none [] []
    [.mk { kind := "Bone", uuid := "b1" } none [] [] []]

/-- Witness skeleton record: one resolvable bone, one missing bone. -/
def c4sk : SkeletonRec :=
  { uuid := "sk1", bones := ["b1", "bMissing"],
    boneInverses := [mat4id, mat4id] }

/-- Witness skeleton map holding one skeleton under uuid `sk1`. -/
def c4sks : List (String × Skel) :=
  [("sk1", { bones := [BoneRef.found "b1"], boneInverses := [mat4id] })]

/-- Witness skinned-mesh core carrying a skeleton reference. -/
def c4core : Core :=
  { kind := "SkinnedMesh", uuid := "sm1", isSkinnedMesh := true,
    skeletonUUID := some "sk1" }

/-- Record with a type tag outside the dispatch set. -/
def c5rec : NData :=
  { type := "FutureWidget", uuid := "w1", name := "widget",
    position := some [4, 5, 6] }

/-- Record lacking `visible`, `castShadow` and `receiveShadow`. -/
def c6rec : NData := { type := "PointLight", uuid := "l1", name := "light" }

/-- Record carrying both a matrix and explicit rotation and scale. -/
def c7rec : NData :=
  { type := "Group", uuid := "t1", name := "transformed",
    matrix := some mat4id, rotation := some [7, 0, 0], scale := some [2, 2, 2] }

/-- Context whose decomposition routine returns recognizable values. -/
def c7ctx : Ctx :=
  { decompose := fun _ => ([9, 9, 9], [1, 0, 0, 0], [3, 3, 3]) }

/-- LOD record with one resolvable and one missing level. -/
def c8rec : NData :=
  { type := "LOD", uuid := "lod1", name := "lod",
    levels := some [{ object := "uuidA", distance := 10 },
                    { object := "uuidMissing", distance := 50 }] }

/-- Child record of the witness LOD node. -/
def c8child : NData := { type := "Group", uuid := "uuidA", name := "levelA" }

/-- Record with a non-empty skeletons block and a skinned-mesh child
whose skeleton uuid matches no declared skeleton. -/
def c10rec : NData :=
  { type := "Group", uuid := "root10", name := "root",
    skeletons := some [{ uuid := "skA", bones := ["bx"], boneInverses := [mat4id] }] }

/-- Skinned-mesh child record of `c10rec` (its geometry resolves). -/
def c10child : NData :=
  { type := "SkinnedMesh", uuid := "sm10", geometry := some "geo10",
    skeleton := some "skGone" }

/-- Context resolving the witness skinned mesh's geometry. -/
def c10ctx : Ctx := { geometries := [("geo10", { bones := ["bx"] })] }

/-! Projection lemmas for the node updaters. -/

@[simp] theorem withCore_core (f : Core → Core) (n : Node3D) :
    (n.withCore f).core = f n.core := by
  cases n
  rfl

@[simp] theorem withCore_children (f : Core → Core) (n : Node3D) :
    (n.withCore f).children = n.children := by
  cases n
  rfl

@[simp] theorem withCore_cameras (f : Core → Core) (n : Node3D) :
    (n.withCore f).cameras = n.cameras := by
  cases n
  rfl

@[simp] theorem withCore_lodLevels (f : Core → Core) (n : Node3D) :
    (n.withCore f).lodLevels = n.lodLevels := by
  cases n
  rfl

@[simp] theorem withCore_boundSkeleton (f : Core → Core) (n : Node3D) :
    (n.withCore f).boundSkeleton = n.boundSkeleton := by
  cases n
  rfl

@[simp] theorem withChildren_core (ch : List Node3D) (n : Node3D) :
    (n.withChildren ch).core = n.core := by
  cases n
  rfl

@[simp] theorem withChildren_children (ch : List Node3D) (n : Node3D) :
    (n.withChildren ch).children = ch := by
  cases n
  rfl

@[simp] theorem withChildren_cameras (ch : List Node3D) (n : Node3D) :
    (n.withChildren ch).cameras = n.cameras := by
  cases n
  rfl

@[simp] theorem withChildren_lodLevels (ch : List Node3D) (n : Node3D) :
    (n.withChildren ch).lodLevels = n.lodLevels := by
  cases n
  rfl

@[simp] theorem withCameras_core (cams : List CamSlot) (n : Node3D) :
    (n.withCameras cams).core = n.core := by
  cases n
  rfl

@[simp] theorem withCameras_cameras (cams : List CamSlot) (n : Node3D) :
    (n.withCameras cams).cameras = cams := by
  cases n
  rfl

@[simp] theorem withCameras_children (cams : List CamSlot) (n : Node3D) :
    (n.withCameras cams).children = n.children := by
  cases n
  rfl

@[simp] theorem withCameras_lodLevels (cams : List CamSlot) (n : Node3D) :
    (n.withCameras cams).lodLevels = n.lodLevels := by
  cases n
  rfl

@[simp] theorem withLod_core (l : List (String × Int)) (n : Node3D) :
    (n.withLod l).core = n.core := by
  cases n
  rfl

@[simp] theorem withLod_lodLevels (l : List (String × Int)) (n : Node3D) :
    (n.withLod l).lodLevels = l := by
  cases n
  rfl

@[simp] theorem withLod_cameras (l : List (String × Int)) (n : Node3D) :
    (n.withLod l).cameras = n.cameras := by
  cases n
  rfl

@[simp] theorem withLod_children (l : List (String × Int)) (n : Node3D) :
    (n.withLod l).children = n.children := by
  cases n
  rfl

/-! Net effect of each stage of `parseObject` on the root node's scalar
state: each stage rewrites at most the named fields and leaves every
other `Core` field untouched. -/

theorem bindCallback_fst (sks : List (String × Skel)) (c : Core) (b : Option Skel) :
    (bindCallback sks c b).1
      = { c with skeletonUUID := (bindCallback sks c b).1.skeletonUUID } := by
  unfold bindCallback
  split
  · split <;> rfl
  · rfl

theorem mau_core (d : NData) (o : Node3D) :
    (matrixAutoUpdateStep d o).core
      = { o.core with
          matrixAutoUpdate := (matrixAutoUpdateStep d o).core.matrixAutoUpdate,
          matrixForceUpdated := (matrixAutoUpdateStep d o).core.matrixForceUpdated } := by
  unfold matrixAutoUpdateStep
  cases o
  rcases d.matrixAutoUpdate with _ | b
  · rfl
  · dsimp only
    split <;> rfl

theorem mau_children (d : NData) (o : Node3D) :
    (matrixAutoUpdateStep d o).children = o.children := by
  unfold matrixAutoUpdateStep
  rcases d.matrixAutoUpdate with _ | b
  · rfl
  · dsimp only
    split <;> simp

theorem mau_cameras (d : NData) (o : Node3D) :
    (matrixAutoUpdateStep d o).cameras = o.cameras := by
  unfold matrixAutoUpdateStep
  rcases d.matrixAutoUpdate with _ | b
  · rfl
  · dsimp only
    split <;> simp

theorem mau_lodLevels (d : NData) (o : Node3D) :
    (matrixAutoUpdateStep d o).lodLevels = o.lodLevels := by
  unfold matrixAutoUpdateStep
  rcases d.matrixAutoUpdate with _ | b
  · rfl
  · dsimp only
    split <;> simp

theorem bindTree_core (sks : List (String × Skel)) (c : Core) (b : Option Skel)
    (cams : List CamSlot) (lods : List (String × Int)) (ch : List Node3D) :
    (bindTree sks (.mk c b cams lods ch)).1.core = (bindCallback sks c b).1 := by
  rw [bindTree]
  rfl

theorem bindTree_children (sks : List (String × Skel)) (c : Core) (b : Option Skel)
    (cams : List CamSlot) (lods : List (String × Int)) (ch : List Node3D) :
    (bindTree sks (.mk c b cams lods ch)).1.children = (bindTreeL sks ch).1 := by
  rw [bindTree]
  rfl

theorem skel_core (d : NData) (o : Node3D) :
    (skeletonStep d o).1.core
      = { o.core with skeletonUUID := (skeletonStep d o).1.core.skeletonUUID } := by
  unfold skeletonStep
  rcases d.skeletons with _ | sb
  · rfl
  · dsimp only
    unfold bindSkeletons
    split
    · rfl
    · cases o with
      | mk c b cams lods ch =>
        dsimp only [bindTree_core, Node3D.core]
        rw [bindTree]
        dsimp only
        rw [bindCallback_fst]

theorem anim_core (d : NData) (o : Node3D) :
    (animationsStep d o).core
      = { o.core with animations := (animationsStep d o).core.animations } := by
  unfold animationsStep
  cases o
  rcases d.animations with _ | arr
  · rfl
  · rfl

theorem post_core (d : NData) (o : Node3D) :
    (postProcessStep d o).core
      = { o.core with ownsResources := (postProcessStep d o).core.ownsResources } := by
  unfold postProcessStep
  cases o
  split
  · rfl
  · split
    · rfl
    · split
      · split <;> rfl
      · rfl

theorem anim_children (d : NData) (o : Node3D) :
    (animationsStep d o).children = o.children := by
  cases o
  unfold animationsStep
  rcases d.animations with _ | arr <;> rfl

theorem post_children (d : NData) (o : Node3D) :
    (postProcessStep d o).children = o.children := by
  cases o
  unfold postProcessStep
  split
  · rfl
  · split
    · rfl
    · split
      · split <;> rfl
      · rfl

/-- An unrecognized type tag falls through every labelled case to the
`default` arm, which constructs the generic empty group node. -/
theorem buildVariant_default (ctx : Ctx) (d : NData) (h : d.type ∉ knownTags) :
    buildVariant ctx d = .ok (mkBase "Container") := by
  unfold buildVariant
  split <;> first
    | rfl
    | (exfalso; apply h; simp_all [knownTags])

/-! Values of the root node's scalar fields after a full `parseObject`
run, obtained by pushing each projection through the stage lemmas. -/

theorem final_uuid (ctx : Ctx) (d : NData) (ch : List NodeData) :
    (parseObject ctx (.mk d ch)).1.core.uuid = d.uuid := by
  show (postProcessStep d (animationsStep d
    (skeletonStep d (preSkeleton ctx d (parseChildren ctx ch).1)).1)).core.uuid = d.uuid
  rw [post_core, anim_core, skel_core]
  dsimp only
  unfold preSkeleton
  rw [mau_core]
  dsimp only
  rw [withChildren_core]
  simp [applyCommon]

theorem final_name (ctx : Ctx) (d : NData) (ch : List NodeData) :
    (parseObject ctx (.mk d ch)).1.core.name = d.name := by
  show (postProcessStep d (animationsStep d
    (skeletonStep d (preSkeleton ctx d (parseChildren ctx ch).1)).1)).core.name = d.name
  rw [post_core, anim_core, skel_core]
  dsimp only
  unfold preSkeleton
  rw [mau_core]
  dsimp only
  rw [withChildren_core]
  simp [applyCommon]

theorem final_kind (ctx : Ctx) (d : NData) (ch : List NodeData) :
    (parseObject ctx (.mk d ch)).1.core.kind = (variantStep ctx d).1.core.kind := by
  show (postProcessStep d (animationsStep d
    (skeletonStep d (preSkeleton ctx d (parseChildren ctx ch).1)).1)).core.kind = _
  rw [post_core, anim_core, skel_core]
  dsimp only
  unfold preSkeleton
  rw [mau_core]
  dsimp only
  rw [withChildren_core]
  simp [applyCommon]

theorem final_visible (ctx : Ctx) (d : NData) (ch : List NodeData) :
    (parseObject ctx (.mk d ch)).1.core.visible = strictTrue d.visible := by
  show (postProcessStep d (animationsStep d
    (skeletonStep d (preSkeleton ctx d (parseChildren ctx ch).1)).1)).core.visible = _
  rw [post_core, anim_core, skel_core]
  dsimp only
  unfold preSkeleton
  rw [mau_core]
  dsimp only
  rw [withChildren_core]
  simp [applyCommon]

theorem final_castShadow (ctx : Ctx) (d : NData) (ch : List NodeData) :
    (parseObject ctx (.mk d ch)).1.core.castShadow = strictTrue d.castShadow := by
  show (postProcessStep d (animationsStep d
    (skeletonStep d (preSkeleton ctx d (parseChildren ctx ch).1)).1)).core.castShadow = _
  rw [post_core, anim_core, skel_core]
  dsimp only
  unfold preSkeleton
  rw [mau_core]
  dsimp only
  rw [withChildren_core]
  simp [applyCommon]

theorem final_receiveShadow (ctx : Ctx) (d : NData) (ch : List NodeData) :
    (parseObject ctx (.mk d ch)).1.core.receiveShadow = strictTrue d.receiveShadow := by
  show (postProcessStep d (animationsStep d
    (skeletonStep d (preSkeleton ctx d (parseChildren ctx ch).1)).1)).core.receiveShadow = _
  rw [post_core, anim_core, skel_core]
  dsimp only
  unfold preSkeleton
  rw [mau_core]
  dsimp only
  rw [withChildren_core]
  simp [applyCommon]

theorem final_position (ctx : Ctx) (d : NData) (ch : List NodeData) :
    (parseObject ctx (.mk d ch)).1.core.position
      = d.position.getD
          (match d.matrix with
           | some m => (ctx.decompose m).1
           | none => (variantStep ctx d).1.core.position) := by
  show (postProcessStep d (animationsStep d
    (skeletonStep d (preSkeleton ctx d (parseChildren ctx ch).1)).1)).core.position = _
  rw [post_core, anim_core, skel_core]
  dsimp only
  unfold preSkeleton
  rw [mau_core]
  dsimp only
  rw [withChildren_core]
  simp [applyCommon]

theorem final_rotation (ctx : Ctx) (d : NData) (ch : List NodeData) :
    (parseObject ctx (.mk d ch)).1.core.rotation
      = d.rotation.getD (variantStep ctx d).1.core.rotation := by
  show (postProcessStep d (animationsStep d
    (skeletonStep d (preSkeleton ctx d (parseChildren ctx ch).1)).1)).core.rotation = _
  rw [post_core, anim_core, skel_core]
  dsimp only
  unfold preSkeleton
  rw [mau_core]
  dsimp only
  rw [withChildren_core]
  simp [applyCommon]

theorem final_quaternion (ctx : Ctx) (d : NData) (ch : List NodeData) :
    (parseObject ctx (.mk d ch)).1.core.quaternion
      = d.quaternion.getD
          (match d.matrix with
           | some m => (ctx.decompose m).2.1
           | none => (variantStep ctx d).1.core.quaternion) := by
  show (postProcessStep d (animationsStep d
    (skeletonStep d (preSkeleton ctx d (parseChildren ctx ch).1)).1)).core.quaternion = _
  rw [post_core, anim_core, skel_core]
  dsimp only
  unfold preSkeleton
  rw [mau_core]
  dsimp only
  rw [withChildren_core]
  simp [applyCommon]

theorem final_scale (ctx : Ctx) (d : NData) (ch : List NodeData) :
    (parseObject ctx (.mk d ch)).1.core.scale
      = d.scale.getD
          (match d.matrix with
           | some m => (ctx.decompose m).2.2
           | none => (variantStep ctx d).1.core.scale) := by
  show (postProcessStep d (animationsStep d
    (skeletonStep d (preSkeleton ctx d (parseChildren ctx ch).1)).1)).core.scale = _
  rw [post_core, anim_core, skel_core]
  dsimp only
  unfold preSkeleton
  rw [mau_core]
  dsimp only
  rw [withChildren_core]
  simp [applyCommon]

/-! Children survive every stage with their uuids intact: the skeleton
pass may rewrite skinned meshes, but it never changes a uuid. -/

theorem bindCallback_uuid (sks : List (String × Skel)) (c : Core) (b : Option Skel) :
    (bindCallback sks c b).1.uuid = c.uuid := by
  rw [bindCallback_fst]

theorem bindTree_root_uuid (sks : List (String × Skel)) (t : Node3D) :
    (bindTree sks t).1.core.uuid = t.core.uuid := by
  cases t with
  | mk c b cams lods ch =>
    rw [bindTree_core]
    exact bindCallback_uuid sks c b

theorem bindTreeL_uuidmap (sks : List (String × Skel)) (l : List Node3D) :
    ((bindTreeL sks l).1).map (fun n => n.core.uuid)
      = l.map (fun n => n.core.uuid) := by
  induction l with
  | nil => rw [bindTreeL]
  | cons t ts ih =>
    rw [bindTreeL]
    dsimp only [List.map]
    rw [bindTree_root_uuid, ih]

theorem skel_children_uuidmap (d : NData) (o : Node3D) :
    ((skeletonStep d o).1.children).map (fun n => n.core.uuid)
      = o.children.map (fun n => n.core.uuid) := by
  unfold skeletonStep
  rcases d.skeletons with _ | sb
  · rfl
  · dsimp only
    unfold bindSkeletons
    split
    · rfl
    · cases o with
      | mk c b cams lods ch =>
        rw [bindTree_children]
        exact bindTreeL_uuidmap _ ch

theorem root_uuid (ctx : Ctx) (nd : NodeData) :
    (parseObject ctx nd).1.core.uuid = nd.d.uuid := by
  cases nd with
  | mk d ch => exact final_uuid ctx d ch

theorem parseChildren_uuidmap (ctx : Ctx) (l : List NodeData) :
    ((parseChildren ctx l).1).map (fun n => n.core.uuid)
      = l.map (fun c => c.d.uuid) := by
  induction l with
  | nil =>
    rw [parseChildren]
    rfl
  | cons c cs ih =>
    rw [parseChildren]
    dsimp only [List.map]
    rw [root_uuid, ih]

theorem final_children_uuidmap (ctx : Ctx) (d : NData) (ch : List NodeData) :
    ((parseObject ctx (.mk d ch)).1.children).map (fun n => n.core.uuid)
      = ch.map (fun c => c.d.uuid) := by
  show ((postProcessStep d (animationsStep d
    (skeletonStep d (preSkeleton ctx d (parseChildren ctx ch).1)).1)).children).map _ = _
  rw [post_children, anim_children, skel_children_uuidmap]
  unfold preSkeleton
  rw [mau_children, withChildren_children]
  exact parseChildren_uuidmap ctx ch

/-! Tree lookup facts. -/

mutual

theorem treeFind_uuid : ∀ (t : Node3D) (u : String) (n : Node3D),
    treeFind u t = some n → n.core.uuid = u
  | .mk c b cams lods ch => by
    intro u n h
    rw [treeFind] at h
    by_cases hc : c.uuid = u
    · rw [if_pos hc] at h
      cases h
      exact hc
    · rw [if_neg hc] at h
      exact treeFindL_uuid ch u n h

theorem treeFindL_uuid : ∀ (l : List Node3D) (u : String) (n : Node3D),
    treeFindL u l = some n → n.core.uuid = u
  | [] => by
    intro u n h
    rw [treeFindL] at h
    cases h
  | t :: ts => by
    intro u n h
    rw [treeFindL] at h
    cases htf : treeFind u t with
    | some r =>
      rw [htf] at h
      cases h
      exact treeFind_uuid t u n htf
    | none =>
      rw [htf] at h
      exact treeFindL_uuid ts u n h

end

theorem treeFind_isSome_withLod (u : String) (l : List (String × Int)) (t : Node3D) :
    (treeFind u (t.withLod l)).isSome = (treeFind u t).isSome := by
  cases t with
  | mk c b cams lods ch =>
    show (treeFind u (.mk c b cams l ch)).isSome = _
    rw [treeFind, treeFind]
    split <;> rfl

theorem lodPass_go (t : Node3D) (ls : List LevelRec) :
    ∀ acc : List (String × Int),
      ls.foldl
        (fun acc lv =>
          match treeFind lv.object t with
          | some child => acc ++ [(child.core.uuid, lv.distance)]
          | none => acc)
        acc
      = acc ++ ls.filterMap
          (fun lv =>
            if (treeFind lv.object t).isSome then some (lv.object, lv.distance)
            else none) := by
  induction ls with
  | nil => intro acc; simp
  | cons lv rest ih =>
    intro acc
    rw [List.foldl_cons, List.filterMap_cons]
    cases htf : treeFind lv.object t with
    | some child =>
      have hu : child.core.uuid = lv.object := treeFind_uuid t lv.object child htf
      rw [ih]
      simp [htf, hu]
    | none =>
      rw [ih]
      simp [htf]

theorem lodPass_filterMap (t : Node3D) (ls : List LevelRec) :
    lodPass t ls
      = ls.filterMap
          (fun lv =>
            if (treeFind lv.object t).isSome then some (lv.object, lv.distance)
            else none) := by
  unfold lodPass
  rw [lodPass_go]
  rfl

/-! The skeleton-binding pass always deletes `skeletonUUID` from every
skinned mesh it traverses, bound or not. -/

theorem bindCallback_clears (sks : List (String × Skel)) (c : Core) (b : Option Skel) :
    (!(bindCallback sks c b).1.isSkinnedMesh
      || ((bindCallback sks c b).1.skeletonUUID).isNone) = true := by
  rcases hsk : c.isSkinnedMesh with _ | _
  · simp [bindCallback, hsk]
  · rcases hsu : c.skeletonUUID with _ | su
    · simp [bindCallback, hsk, hsu]
    · simp only [bindCallback, hsk, hsu]
      cases hlk : slookup sks su <;> simp [hlk]

mutual

theorem asu_bindTree (sks : List (String × Skel)) :
    ∀ t : Node3D, allSkinnedUnbound (bindTree sks t).1 = true
  | .mk c b cams lods ch => by
    rw [bindTree]
    dsimp only
    rw [allSkinnedUnbound]
    rw [Bool.and_eq_true]
    exact ⟨bindCallback_clears sks c b, asu_bindTreeL sks ch⟩

theorem asu_bindTreeL (sks : List (String × Skel)) :
    ∀ l : List Node3D, allSkinnedUnboundL (bindTreeL sks l).1 = true
  | [] => by
    rw [bindTreeL]
    rw [allSkinnedUnboundL]
  | t :: ts => by
    rw [bindTreeL]
    dsimp only
    rw [allSkinnedUnboundL]
    rw [Bool.and_eq_true]
    exact ⟨asu_bindTree sks t, asu_bindTreeL sks ts⟩

end

theorem asu_anim (d : NData) (o : Node3D) :
    allSkinnedUnbound (animationsStep d o) = allSkinnedUnbound o := by
  cases o
  unfold animationsStep
  rcases d.animations with _ | arr <;> rfl

theorem asu_post (d : NData) (o : Node3D) :
    allSkinnedUnbound (postProcessStep d o) = allSkinnedUnbound o := by
  cases o
  unfold postProcessStep
  split
  · rfl
  · split
    · rfl
    · split
      · split <;> rfl
      · rfl

theorem supsert_ne_nil {α : Type} (l : List (String × α)) (k : String) (v : α) :
    supsert l k v ≠ [] := by
  cases l with
  | nil => simp [supsert]
  | cons p rest =>
    unfold supsert
    split <;> simp

theorem skelFoldl_ne (t : Node3D) :
    ∀ (sb : List SkeletonRec) (acc : List (String × Skel) × List LogEntry),
      acc.1 ≠ [] → (sb.foldl (skelStep t) acc).1 ≠ [] := by
  intro sb
  induction sb with
  | nil => intro acc h; exact h
  | cons r rest ih =>
    intro acc _h
    rw [List.foldl_cons]
    exact ih _ (supsert_ne_nil _ _ _)

theorem parseSkeletons_fst_ne (t : Node3D) (sb : List SkeletonRec) (h : sb ≠ []) :
    (parseSkeletons (some sb) t).1 ≠ [] := by
  cases sb with
  | nil => exact absurd rfl h
  | cons r rest =>
    show ((r :: rest).foldl (skelStep t) ([], [])).1 ≠ []
    rw [List.foldl_cons]
    exact skelFoldl_ne t rest _ (supsert_ne_nil _ _ _)

theorem bindSkeletons_ne (t : Node3D) (sks : List (String × Skel)) (h : sks ≠ []) :
    bindSkeletons t sks = bindTree sks t := by
  unfold bindSkeletons
  rw [if_neg (fun hc => h (List.length_eq_zero.mp hc))]

/-! Skeleton-map lookups after `parseSkeletons`. -/

theorem slookup_supsert_self {α : Type} (l : List (String × α)) (k : String) (v : α) :
    slookup (supsert l k v) k = some v := by
  induction l with
  | nil => simp [supsert, slookup]
  | cons p rest ih =>
    unfold supsert
    split
    · next hk =>
      unfold slookup
      rw [if_pos hk]
    · next hk =>
      unfold slookup
      rw [if_neg hk]
      exact ih

theorem slookup_supsert_other {α : Type} (l : List (String × α)) (k k2 : String)
    (v : α) (h : k2 ≠ k) : slookup (supsert l k v) k2 = slookup l k2 := by
  induction l with
  | nil =>
    simp only [supsert, slookup]
    rw [if_neg (fun he => h he.symm)]
  | cons p rest ih =>
    obtain ⟨k1, w⟩ := p
    unfold supsert
    split
    · next hk =>
      subst hk
      simp only [slookup]
      have hne : ¬(k1 = k2) := fun he => h he.symm
      simp only [if_neg hne]
    · next hk =>
      simp only [slookup]
      split
      · rfl
      · exact ih

theorem skelFoldl_lookup_notin (t : Node3D) :
    ∀ (sb : List SkeletonRec) (acc : List (String × Skel) × List LogEntry) (k : String),
      k ∉ sb.map SkeletonRec.uuid →
      slookup ((sb.foldl (skelStep t) acc).1) k = slookup acc.1 k := by
  intro sb
  induction sb with
  | nil => intro acc k _h; rfl
  | cons r rest ih =>
    intro acc k h
    rw [List.map_cons, List.mem_cons] at h
    push_neg at h
    rw [List.foldl_cons]
    rw [ih _ k h.2]
    exact slookup_supsert_other _ _ _ _ h.1

theorem skelFoldl_lookup (t : Node3D) (sk : SkeletonRec) :
    ∀ (sb : List SkeletonRec) (acc : List (String × Skel) × List LogEntry),
      sk ∈ sb → (sb.map SkeletonRec.uuid).Nodup →
      slookup ((sb.foldl (skelStep t) acc).1) sk.uuid = some (mkSkel t sk) := by
  intro sb
  induction sb with
  | nil => intro acc h; cases h
  | cons r rest ih =>
    intro acc hmem hnodup
    rw [List.map_cons, List.nodup_cons] at hnodup
    rw [List.foldl_cons]
    rcases List.mem_cons.mp hmem with heq | hmem2
    · subst heq
      rw [skelFoldl_lookup_notin t rest _ _ hnodup.1]
      show slookup (supsert acc.1 sk.uuid (mkSkel t sk)) sk.uuid = _
      exact slookup_supsert_self _ _ _
    · exact ih _ hmem2 hnodup.2

theorem parseSkeletons_lookup (t : Node3D) (sb : List SkeletonRec) (sk : SkeletonRec)
    (hmem : sk ∈ sb) (hnodup : (sb.map SkeletonRec.uuid).Nodup) :
    slookup (parseSkeletons (some sb) t).1 sk.uuid = some (mkSkel t sk) := by
  show slookup ((sb.foldl (skelStep t) ([], [])).1) sk.uuid = _
  exact skelFoldl_lookup t sk sb _ hmem hnodup

/-! Closed forms for the skeleton builder on a whole record. -/

theorem headD_eq_getD {α : Type} (l : List α) (dflt : α) :
    l.headD dflt = l.getD 0 dflt := by
  cases l <;> simp

theorem tail_getD {α : Type} (l : List α) (j : Nat) (dflt : α) :
    l.tail.getD j dflt = l.getD (j + 1) dflt := by
  cases l <;> simp [List.getD]

theorem skelBones_eq (t : Node3D) :
    ∀ (us : List String) (invs : List (List Int)),
      skelBones t us invs
        = (us.map (fun u =>
             if (treeFind u t).isSome then BoneRef.found u else BoneRef.placeholder),
           (List.range us.length).map (fun j => invs.getD j mat4id),
           us.filterMap (fun u =>
             if (treeFind u t).isSome then none
             else some (LogEntry.warn
               ("THREE.ObjectLoader: Not found Bone whose uuid is " ++ u)))) := by
  intro us
  induction us with
  | nil =>
    intro invs
    rw [skelBones]
    rfl
  | cons u rest ih =>
    intro invs
    rw [skelBones]
    rw [ih]
    cases htf : treeFind u t <;>
      simp [htf, List.range_succ_eq_map, List.map_map, Function.comp,
        tail_getD, headD_eq_getD, List.filterMap_cons]
    all_goals cases invs <;> simp

theorem mkSkel_eq (t : Node3D) (sk : SkeletonRec) :
    mkSkel t sk
      = { bones := sk.bones.map (fun u =>
            if (treeFind u t).isSome then BoneRef.found u else BoneRef.placeholder),
          boneInverses := (List.range sk.bones.length).map
            (fun j => sk.boneInverses.getD j mat4id) } := by
  unfold mkSkel
  rw [skelBones_eq]

theorem skelFoldl_log (t : Node3D) :
    ∀ (sb : List SkeletonRec) (acc : List (String × Skel) × List LogEntry),
      (sb.foldl (skelStep t) acc).2
        = acc.2 ++ (sb.map
            (fun r => (skelBones t r.bones r.boneInverses).2.2)).flatten := by
  intro sb
  induction sb with
  | nil => intro acc; simp
  | cons r rest ih =>
    intro acc
    rw [List.foldl_cons, ih]
    show (acc.2 ++ (skelBones t r.bones r.boneInverses).2.2) ++ _ = _
    simp [List.append_assoc]

theorem parseSkeletons_log (t : Node3D) (sb : List SkeletonRec) :
    (parseSkeletons (some sb) t).2
      = (sb.map (fun r => r.bones.filterMap (fun u =>
          if (treeFind u t).isSome then none
          else some (LogEntry.warn
            ("THREE.ObjectLoader: Not found Bone whose uuid is " ++ u))))).flatten := by
  show ((sb.foldl (skelStep t) ([], [])).2) = _
  rw [skelFoldl_log]
  simp only [List.nil_append]
  have h : (fun r : SkeletonRec => (skelBones t r.bones r.boneInverses).2.2)
      = (fun r : SkeletonRec => r.bones.filterMap (fun u =>
          if (treeFind u t).isSome then none
          else some (LogEntry.warn
            ("THREE.ObjectLoader: Not found Bone whose uuid is " ++ u)))) := by
    funext r
    rw [skelBones_eq]
  rw [h]

theorem bindCallback_eqn (sks : List (String × Skel)) (c : Core) (b : Option Skel)
    (su : String) (hskin : c.isSkinnedMesh = true) (hsu : c.skeletonUUID = some su) :
    bindCallback sks c b
      = (match slookup sks su with
         | some s => ({ c with skeletonUUID := none }, some s, [])
         | none =>
           ({ c with skeletonUUID := none }, b,
            [LogEntry.warn
              ("THREE.ObjectLoader: Not found Skeleton whose uuid is " ++ su)])) := by
  simp only [bindCallback, hskin, hsu]
  cases slookup sks su <;> rfl

/-! Shape of a finished LOD node. -/

theorem final_lod (ctx : Ctx) (d : NData) (ch : List NodeData) (ls : List LevelRec)
    (ht : d.type = "LOD") (hl : d.levels = some ls) :
    (parseObject ctx (.mk d ch)).1
      = (animationsStep d
          (skeletonStep d (preSkeleton ctx d (parseChildren ctx ch).1)).1).withLod
          (lodPass
            (animationsStep d
              (skeletonStep d (preSkeleton ctx d (parseChildren ctx ch).1)).1) ls) := by
  show postProcessStep d (animationsStep d
    (skeletonStep d (preSkeleton ctx d (parseChildren ctx ch).1)).1) = _
  unfold postProcessStep
  rw [ht, hl]
  rw [if_neg (by decide), if_neg (by decide), if_pos rfl]

/-- Claim C1: whenever the variant-specific construction of a node
record throws, `parseObject` yields a generic empty group node
(`Container`) carrying the record's uuid and name, reports the error to
the console sink, and the construction of the record's siblings and
ancestors continues — any parent record still constructs one child per
child record, with the right uuids, so the exception never aborts the
whole load. -/
theorem claim_C1 (ctx : Ctx) (d pd : NData) (ch pch : List NodeData) (e : String)
    (herr : buildVariant ctx d = .error e)
    (_hmem : NodeData.mk d ch ∈ pch) :
    (parseObject ctx (.mk d ch)).1.core.kind = "Container"
    ∧ (parseObject ctx (.mk d ch)).1.core.uuid = d.uuid
    ∧ (parseObject ctx (.mk d ch)).1.core.name = d.name
    ∧ LogEntry.error (errorMsg d.uuid) ∈ (parseObject ctx (.mk d ch)).2
    ∧ ((parseObject ctx (.mk pd pch)).1.children.map (fun n => n.core.uuid)
        = pch.map (fun c => c.d.uuid)) := by
  have hvs : variantStep ctx d = (mkBase "Container", [LogEntry.error (errorMsg d.uuid)]) := by
    unfold variantStep
    rw [herr]
  refine ⟨?_, final_uuid ctx d ch, final_name ctx d ch, ?_,
    final_children_uuidmap ctx pd pch⟩
  · rw [final_kind, hvs]
    rfl
  · show LogEntry.error (errorMsg d.uuid) ∈
      (variantStep ctx d).2 ++ (parseChildren ctx ch).2
        ++ (skeletonStep d (preSkeleton ctx d (parseChildren ctx ch).1)).2
    rw [hvs]
    simp

/-- Witnesses claim C1 on a `Mesh` record whose geometry uuid misses
the (empty) geometry container, sitting beside a healthy sibling. -/
theorem claim_C1_witness :
    buildVariant {} c1rec = Except.error "TypeError: cannot read bones of undefined"
    ∧ ((parseObject {} (.mk c1rec [])).1.core.kind = "Container"
       ∧ (parseObject {} (.mk c1rec [])).1.core.uuid = c1rec.uuid
       ∧ (parseObject {} (.mk c1rec [])).1.core.name = c1rec.name
       ∧ LogEntry.error (errorMsg c1rec.uuid) ∈ (parseObject {} (.mk c1rec [])).2
       ∧ ((parseObject {}
             (.mk c1parent [NodeData.mk c1sibling [], NodeData.mk c1rec []])).1.children.map
              (fun n => n.core.uuid)
           = [NodeData.mk c1sibling [], NodeData.mk c1rec []].map (fun c => c.d.uuid))) :=
  ⟨rfl,
   claim_C1 {} c1rec c1parent [] [NodeData.mk c1sibling [], NodeData.mk c1rec []]
     "TypeError: cannot read bones of undefined" rfl
     (List.Mem.tail _ (List.Mem.head _))⟩

/-- Claim C2 (code bug): the Scene camera-resolution loop is claimed to
drop every uuid that fails to resolve, but `splice(i, 1)` inside the
forward loop skips the element that slides into position `i`.  On a
Scene whose `cameras` list is `["bad1", "bad2"]` with neither uuid
resolving, the code leaves the raw uuid `"bad2"` in the list instead of
producing the empty list. -/
theorem claim_C2 :
    (parseObject {} (.mk c2rec [])).1.cameras = [CamSlot.ref "bad2"]
    ∧ (parseObject {} (.mk c2rec [])).1.cameras ≠ [] :=
  ⟨rfl, fun h => List.noConfusion h⟩

/-- Claim C3 (code bug): the record declares one animation, but
`parseAnimations` calls `animations.push()` with no argument, so it
returns the empty list, which then overwrites the correctly parsed clip
list stored by the universal-field pass; the finished node carries zero
clips instead of one per animation record. -/
theorem claim_C3 :
    c3rec.animations = some [{ name := "walk", uuid := some "clip1" }]
    ∧ parseAnimations [{ name := "walk", uuid := some "clip1" }] = []
    ∧ (parseObject {} (.mk c3rec [])).1.core.animations = some [] :=
  ⟨rfl, rfl, rfl⟩

/-- Claim C4: a skeletons block builds, for each declared skeleton
record, a skeleton whose bone list follows the declared bone-uuid order
with tree-resolved bones and a placeholder for every uuid missing from
the tree; each missing bone is reported with a warning; binding a
skinned mesh whose `skeletonUUID` matches a built skeleton stores that
skeleton and deletes the reference, while an unmatched reference logs a
warning and leaves the mesh unbound; and with a non-empty skeleton map
the binding pass really traverses the tree. -/
theorem claim_C4 (t : Node3D) (sb : List SkeletonRec) (sk : SkeletonRec)
    (sks : List (String × Skel)) (c : Core) (b : Option Skel) (su : String)
    (hmem : sk ∈ sb) (hnodup : (sb.map SkeletonRec.uuid).Nodup)
    (hskin : c.isSkinnedMesh = true) (hsu : c.skeletonUUID = some su)
    (hne : sks ≠ []) :
    slookup (parseSkeletons (some sb) t).1 sk.uuid
      = some { bones := sk.bones.map (fun u =>
                 if (treeFind u t).isSome then BoneRef.found u
                 else BoneRef.placeholder),
               boneInverses := (List.range sk.bones.length).map
                 (fun j => sk.boneInverses.getD j mat4id) }
    ∧ (parseSkeletons (some sb) t).2
        = (sb.map (fun r => r.bones.filterMap (fun u =>
            if (treeFind u t).isSome then none
            else some (LogEntry.warn
              ("THREE.ObjectLoader: Not found Bone whose uuid is " ++ u))))).flatten
    ∧ bindCallback sks c b
        = (match slookup sks su with
           | some s => ({ c with skeletonUUID := none }, some s, [])
           | none =>
             ({ c with skeletonUUID := none }, b,
              [LogEntry.warn
                ("THREE.ObjectLoader: Not found Skeleton whose uuid is " ++ su)]))
    ∧ bindSkeletons t sks = bindTree sks t := by
  refine ⟨?_, parseSkeletons_log t sb, bindCallback_eqn sks c b su hskin hsu,
    bindSkeletons_ne t sks hne⟩
  rw [parseSkeletons_lookup t sb sk hmem hnodup, mkSkel_eq]

/-- Witnesses claim C4 on a one-skeleton block with one resolvable and
one missing bone, and a skinned-mesh core referencing skeleton
`"sk1"`. -/
theorem claim_C4_witness :
    (c4sk ∈ [c4sk] ∧ c4core.isSkinnedMesh = true
      ∧ c4core.skeletonUUID = some "sk1")
    ∧ (slookup (parseSkeletons (some [c4sk]) c4tree).1 c4sk.uuid
        = some { bones := c4sk.bones.map (fun u =>
                   if (treeFind u c4tree).isSome then BoneRef.found u
                   else BoneRef.placeholder),
                 boneInverses := (List.range c4sk.bones.length).map
                   (fun j => c4sk.boneInverses.getD j mat4id) }
       ∧ (parseSkeletons (some [c4sk]) c4tree).2
           = ([c4sk].map (fun r => r.bones.filterMap (fun u =>
               if (treeFind u c4tree).isSome then none
               else some (LogEntry.warn
                 ("THREE.ObjectLoader: Not found Bone whose uuid is " ++ u))))).flatten
       ∧ bindCallback c4sks c4core none
           = (match slookup c4sks "sk1" with
              | some s => ({ c4core with skeletonUUID := none }, some s, [])
              | none =>
                ({ c4core with skeletonUUID := none }, none,
                 [LogEntry.warn
                   ("THREE.ObjectLoader: Not found Skeleton whose uuid is " ++ "sk1")]))
       ∧ bindSkeletons c4tree c4sks = bindTree c4sks c4tree) :=
  ⟨⟨List.Mem.head _, rfl, rfl⟩,
   claim_C4 c4tree [c4sk] c4sk c4sks c4core none "sk1"
     (List.Mem.head _) (by simp) rfl rfl (by decide)⟩

/-- Claim C5: a record whose type tag is outside the dispatch set
raises no exception — the `default` arm yields the generic empty group
node — and the resulting node still receives the record's uuid, name
and transform through the universal-field pass. -/
theorem claim_C5 (ctx : Ctx) (d : NData) (ch : List NodeData)
    (hunk : d.type ∉ knownTags) :
    buildVariant ctx d = .ok (mkBase "Container")
    ∧ (parseObject ctx (.mk d ch)).1.core.kind = "Container"
    ∧ (parseObject ctx (.mk d ch)).1.core.uuid = d.uuid
    ∧ (parseObject ctx (.mk d ch)).1.core.name = d.name
    ∧ (parseObject ctx (.mk d ch)).1.core.position
        = (applyCommon ctx d (mkBase "Container")).core.position
    ∧ (parseObject ctx (.mk d ch)).1.core.rotation
        = (applyCommon ctx d (mkBase "Container")).core.rotation
    ∧ (parseObject ctx (.mk d ch)).1.core.quaternion
        = (applyCommon ctx d (mkBase "Container")).core.quaternion
    ∧ (parseObject ctx (.mk d ch)).1.core.scale
        = (applyCommon ctx d (mkBase "Container")).core.scale := by
  have hbv := buildVariant_default ctx d hunk
  have hvs : variantStep ctx d = (mkBase "Container", []) := by
    unfold variantStep
    rw [hbv]
  refine ⟨hbv, ?_, final_uuid ctx d ch, final_name ctx d ch, ?_, ?_, ?_, ?_⟩
  · rw [final_kind, hvs]
    rfl
  · rw [final_position, hvs]
    simp [applyCommon]
  · rw [final_rotation, hvs]
    simp [applyCommon]
  · rw [final_quaternion, hvs]
    simp [applyCommon]
  · rw [final_scale, hvs]
    simp [applyCommon]

/-- Witnesses claim C5 on a `"FutureWidget"` record with an explicit
position. -/
theorem claim_C5_witness :
    c5rec.type ∉ knownTags
    ∧ (buildVariant {} c5rec = .ok (mkBase "Container")
       ∧ (parseObject {} (.mk c5rec [])).1.core.kind = "Container"
       ∧ (parseObject {} (.mk c5rec [])).1.core.uuid = c5rec.uuid
       ∧ (parseObject {} (.mk c5rec [])).1.core.name = c5rec.name
       ∧ (parseObject {} (.mk c5rec [])).1.core.position
           = (applyCommon {} c5rec (mkBase "Container")).core.position
       ∧ (parseObject {} (.mk c5rec [])).1.core.rotation
           = (applyCommon {} c5rec (mkBase "Container")).core.rotation
       ∧ (parseObject {} (.mk c5rec [])).1.core.quaternion
           = (applyCommon {} c5rec (mkBase "Container")).core.quaternion
       ∧ (parseObject {} (.mk c5rec [])).1.core.scale
           = (applyCommon {} c5rec (mkBase "Container")).core.scale) :=
  ⟨by decide, claim_C5 {} c5rec [] (by decide)⟩

/-- Claim C6: a record lacking `visible` produces a node whose visible
flag is false (never true), and likewise the shadow flags default to
false when absent. -/
theorem claim_C6 (ctx : Ctx) (d : NData) (ch : List NodeData)
    (hv : d.visible = none) (hc : d.castShadow = none)
    (hr : d.receiveShadow = none) :
    (parseObject ctx (.mk d ch)).1.core.visible = false
    ∧ (parseObject ctx (.mk d ch)).1.core.castShadow = false
    ∧ (parseObject ctx (.mk d ch)).1.core.receiveShadow = false := by
  refine ⟨?_, ?_, ?_⟩
  · rw [final_visible, hv]
    rfl
  · rw [final_castShadow, hc]
    rfl
  · rw [final_receiveShadow, hr]
    rfl

/-- Witnesses claim C6 on a light record carrying none of the three
flags. -/
theorem claim_C6_witness :
    (c6rec.visible = none ∧ c6rec.castShadow = none
      ∧ c6rec.receiveShadow = none)
    ∧ ((parseObject {} (.mk c6rec [])).1.core.visible = false
       ∧ (parseObject {} (.mk c6rec [])).1.core.castShadow = false
       ∧ (parseObject {} (.mk c6rec [])).1.core.receiveShadow = false) :=
  ⟨⟨rfl, rfl, rfl⟩, claim_C6 {} c6rec [] rfl rfl rfl⟩

/-- Claim C7: with a `matrix` field present, the matrix is decomposed
into position, quaternion and scale first, and each explicitly stored
component array then overrides the field it names (last-write-wins),
while a component with no explicit array keeps its matrix-decomposed
value. -/
theorem claim_C7 (ctx : Ctx) (d : NData) (ch : List NodeData)
    (m : List Int) (rt : List Int)
    (hm : d.matrix = some m) (hr : d.rotation = some rt) :
    (parseObject ctx (.mk d ch)).1.core.position
      = d.position.getD (ctx.decompose m).1
    ∧ (parseObject ctx (.mk d ch)).1.core.rotation = rt
    ∧ (parseObject ctx (.mk d ch)).1.core.quaternion
        = d.quaternion.getD (ctx.decompose m).2.1
    ∧ (parseObject ctx (.mk d ch)).1.core.scale
        = d.scale.getD (ctx.decompose m).2.2 := by
  refine ⟨?_, ?_, ?_, ?_⟩
  · rw [final_position, hm]
  · rw [final_rotation, hr]
    rfl
  · rw [final_quaternion, hm]
  · rw [final_scale, hm]

/-- Witnesses claim C7 on a record carrying a matrix plus explicit
rotation and scale arrays, against a context whose decomposition
returns recognizable values. -/
theorem claim_C7_witness :
    (c7rec.matrix = some mat4id ∧ c7rec.rotation = some [7, 0, 0])
    ∧ ((parseObject c7ctx (.mk c7rec [])).1.core.position
        = c7rec.position.getD (c7ctx.decompose mat4id).1
       ∧ (parseObject c7ctx (.mk c7rec [])).1.core.rotation = [7, 0, 0]
       ∧ (parseObject c7ctx (.mk c7rec [])).1.core.quaternion
           = c7rec.quaternion.getD (c7ctx.decompose mat4id).2.1
       ∧ (parseObject c7ctx (.mk c7rec [])).1.core.scale
           = c7rec.scale.getD (c7ctx.decompose mat4id).2.2) :=
  ⟨⟨rfl, rfl⟩, claim_C7 c7ctx c7rec [] mat4id [7, 0, 0] rfl rfl⟩

/-- Claim C8: an LOD record with a levels array registers exactly the
declared levels whose object uuid resolves in the finished subtree,
each paired with its declared distance and in declared order, and the
unresolved levels are skipped with no console output — the log equals
the log of the same record with no levels at all. -/
theorem claim_C8 (ctx : Ctx) (d : NData) (ch : List NodeData)
    (ls : List LevelRec) (ht : d.type = "LOD") (hl : d.levels = some ls) :
    (parseObject ctx (.mk d ch)).1.lodLevels
      = ls.filterMap (fun lv =>
          if (treeFind lv.object (parseObject ctx (.mk d ch)).1).isSome
          then some (lv.object, lv.distance) else none)
    ∧ (parseObject ctx (.mk d ch)).2
        = (parseObject ctx (.mk { d with levels := none } ch)).2 := by
  constructor
  · rw [final_lod ctx d ch ls ht hl]
    rw [withLod_lodLevels]
    rw [lodPass_filterMap]
    simp only [treeFind_isSome_withLod]
  · rfl

/-- Witnesses claim C8 on an LOD with one resolvable and one missing
level. -/
theorem claim_C8_witness :
    (c8rec.type = "LOD"
      ∧ c8rec.levels = some [{ object := "uuidA", distance := 10 },
                             { object := "uuidMissing", distance := 50 }])
    ∧ ((parseObject {} (.mk c8rec [NodeData.mk c8child []])).1.lodLevels
        = [({ object := "uuidA", distance := 10 } : LevelRec),
           { object := "uuidMissing", distance := 50 }].filterMap (fun lv =>
            if (treeFind lv.object
                  (parseObject {} (.mk c8rec [NodeData.mk c8child []])).1).isSome
            then some (lv.object, lv.distance) else none)
       ∧ (parseObject {} (.mk c8rec [NodeData.mk c8child []])).2
           = (parseObject {}
               (.mk { c8rec with levels := none } [NodeData.mk c8child []])).2) :=
  ⟨⟨rfl, rfl⟩,
   claim_C8 {} c8rec [NodeData.mk c8child []]
     [{ object := "uuidA", distance := 10 }, { object := "uuidMissing", distance := 50 }]
     rfl rfl⟩

/-- Claim C9: with no declared images `parse` invokes the completion
callback synchronously with the finished root node; with one or more
declared images `parse` itself leaves the callback uninvoked; and in
both cases it returns the constructed tree. -/
theorem claim_C9 (ctx : Ctx) (doc : Document) :
    (parse ctx doc true).onLoadCalledWith
      = specCompletion doc.images (parse ctx doc true).tree
    ∧ (parse ctx doc true).tree = (parseObject ctx doc.object).1 := by
  cases doc with
  | mk imgs root =>
    cases imgs with
    | none => exact ⟨rfl, rfl⟩
    | some l =>
      cases l with
      | nil => exact ⟨rfl, rfl⟩
      | cons a as => exact ⟨rfl, rfl⟩

/-- Claim C10: after a record with a non-empty skeletons block is
parsed, no skinned mesh anywhere in its subtree retains a
`skeletonUUID` property, whether or not a matching skeleton was
found. -/
theorem claim_C10 (ctx : Ctx) (d : NData) (ch : List NodeData)
    (sb : List SkeletonRec) (hsb : d.skeletons = some sb) (hne : sb ≠ []) :
    allSkinnedUnbound (parseObject ctx (.mk d ch)).1 = true := by
  show allSkinnedUnbound (postProcessStep d (animationsStep d
    (skeletonStep d (preSkeleton ctx d (parseChildren ctx ch).1)).1)) = true
  rw [asu_post, asu_anim]
  unfold skeletonStep
  rw [hsb]
  dsimp only
  rw [bindSkeletons_ne _ _ (parseSkeletons_fst_ne _ sb hne)]
  exact asu_bindTree _ _

/-- Witnesses claim C10 on a group with a one-skeleton block and a
skinned-mesh child whose skeleton uuid matches no declared skeleton. -/
theorem claim_C10_witness :
    c10rec.skeletons
      = some [{ uuid := "skA", bones := ["bx"], boneInverses := [mat4id] }]
    ∧ allSkinnedUnbound (parseObject c10ctx (.mk c10rec [NodeData.mk c10child []])).1
        = true :=
  ⟨rfl,
   claim_C10 c10ctx c10rec [NodeData.mk c10child []]
     [{ uuid := "skA", bones := ["bx"], boneInverses := [mat4id] }] rfl (by simp)⟩

end NunuLoader
